import Mathlib

/-!
Verification of the nlever deployment server (src/nlever-server.mjs).

The server manages per-app release directories on one host.  Each app has a
base directory holding a `current` symlink, a `previous` symlink, a
`releases/` directory of timestamped release trees, and a `.nlever-deploying`
lock marker file.  We embed the filesystem state an app's handlers read and
write, and the handlers themselves (`acquireLock`, `releaseLock`, `deploy`,
`rollback`, `destroyApp`, `checkRateLimit`, launch-command selection and the
management-API dispatch) as pure Lean functions.  External collaborators
(tar, npm/yarn, the pm2 supervisor, the HTTP health endpoint) are modelled by
boolean/function parameters recording the outcome of each external call, in
the order the source performs them.
-/

/-- Lock staleness threshold, milliseconds (source line 163: `lockAge > 600000`). -/
def LOCK_STALE_MS : Nat := 600000

/-- Rate-limit window, milliseconds (source line 67: `now - entry.lastReset > 60000`). -/
def RATE_WINDOW_MS : Nat := 60000

/-- Rate-limit cap per window (source line 73: `entry.count >= 10`). -/
def RATE_MAX : Nat := 10

/-- The filesystem state of one app's base directory, as read and written by
the handlers: presence and mtime of the `.nlever-deploying` lock marker,
targets of the `current` and `previous` symlinks (absent symlink = `none`),
and the entries of the `releases` directory. -/
structure AppFs where
  lockMtime : Option Nat
  current : Option String
  previous : Option String
  releases : List String
deriving Repr, DecidableEq

/-- Path of the release directory for a given millisecond timestamp,
relative to the app base (`getAppPaths`, lines 104-120). -/
def releasePath (ts : Nat) : String := "releases/" ++ Nat.repr ts

/-- `acquireLock` (lines 155-176).  Ensures the base directory exists (a
no-op on `AppFs`), then stats the lock marker.  If it exists and its age
strictly exceeds 600000 ms it is unlinked and a fresh marker is written;
if its age is at most 600000 ms the call throws
`Deployment already in progress`; if it does not exist (ENOENT) a fresh
marker is written.  The marker's mtime becomes the current time. -/
def acquireLock (now : Nat) (fs : AppFs) : Except String AppFs :=
  match fs.lockMtime with
  | some m =>
    if now - m > LOCK_STALE_MS then
      Except.ok { fs with lockMtime := some now }
    else
      Except.error "Deployment already in progress"
  | none => Except.ok { fs with lockMtime := some now }

/-- `releaseLock` (lines 178-183): best-effort unlink of the lock marker,
errors swallowed. -/
def releaseLock (fs : AppFs) : AppFs := { fs with lockMtime := none }

/-- `rollback` (lines 429-450).  Reads the `previous` target, then the
`current` target; a failed readlink (absent symlink) aborts with a 404
response and no mutation.  Otherwise `current` is repointed to the old
`previous` target and `previous` to the old `current` target, and pm2 is
asked to restart the process; a failing restart is caught by the same
handler-wide catch and answered 404, after the swap has happened.
Returns (status code, response message) and the resulting state;
`pm2RestartOk` records the outcome of the `pm2 restart` call. -/
def rollback (pm2RestartOk : Bool) (fs : AppFs) : (Nat × String) × AppFs :=
  match fs.previous with
  | none => ((404, "No previous version to rollback to"), fs)
  | some p =>
    match fs.current with
    | none => ((404, "No previous version to rollback to"), fs)
    | some c =>
      let fs' := { fs with current := some p, previous := some c }
      if pm2RestartOk then
        ((200, "Rollback successful"), fs')
      else
        ((404, "No previous version to rollback to"), fs')

/-- A state whose lock marker was written at time 0 and has no releases. -/
def fsLockedAt0 : AppFs :=
  { lockMtime := some 0, current := none, previous := none, releases := [] }

/-- A state with one release, `current` pointing at it, no `previous`. -/
def fsOneRelease : AppFs :=
  { lockMtime := none, current := some "releases/1", previous := none,
    releases := ["1"] }

/-- A state with two releases and both symlinks in place. -/
def fsTwoReleases : AppFs :=
  { lockMtime := none, current := some "releases/2",
    previous := some "releases/1", releases := ["1", "2"] }

/-- Outcome of one `deploy` request: the 200 success response carrying the
release timestamp (lines 404-409), or the 500 error response carrying the
failure message (line 423). -/
inductive DeployResult where
  | success (timestamp : Nat)
  | failure (msg : String)
deriving Repr, DecidableEq

/-- Number of health-check attempts (line 353: `maxAttempts = 10`). -/
def maxAttempts : Nat := 10

/-- Health-check delay schedule in milliseconds (line 354: one delay per
attempt, slept before the attempt). -/
def healthDelays : List Nat :=
  [1000, 2000, 4000, 4000, 4000, 4000, 4000, 4000, 4000, 4000]

/-- Outcomes of the external calls one `deploy` request makes, in source
order: the millisecond timestamp taken at line 212 (also the clock used by
`acquireLock`), the `health_check` query parameter, whether `tar -xzf`
exits 0, whether the pm2 restart-or-start step (lines 321-338) succeeds,
whether the post-settle `pm2 describe` (line 344) succeeds, and the HTTP
status each health-check attempt would observe (`none` standing for a
connection error or timeout). -/
structure DeployEnv where
  now : Nat
  healthCheck : Option String
  extractOk : Bool
  pm2StartOk : Bool
  pm2DescribeOk : Bool
  healthStatus : Nat → Option Nat

/-- JavaScript truthiness of an optional string: absent (`null`/missing)
or empty means falsy.  Used for `deploy`'s `if (healthCheck)` gate
(line 352, where `searchParams.get` yields `null` or a string) and for the
manifest fields read at lines 281-291. -/
def jsTruthy : Option String → Bool
  | none => false
  | some s => !(s == "")

/-- The automatic rollback taken in `deploy`'s catch block when
`rollbackNeeded` is set (lines 412-421): read the `previous` target and
repoint `current` to it; every error there is swallowed, so an absent
`previous` leaves `current` untouched. -/
def autoRollback (fs : AppFs) : AppFs :=
  match fs.previous with
  | some t => { fs with current := some t }
  | none => fs

/-- `deploy` (lines 199-427) as a transition on the app's filesystem state.
Step order follows the source: acquire the lock (failure is caught by the
handler-wide catch, answered 500, and still runs the `finally` block, which
releases the lock); create the release directory under `releases/`; stream
and extract the archive (failure answers 500 and leaves the partial release
directory in place); repoint `previous` to the old `current` target when one
exists; repoint `current` to the new release (the point of no return); run
the pm2 restart-or-start step (its failure answers 500 *without* setting
`rollbackNeeded`); query `pm2 describe` (failure sets `rollbackNeeded`,
triggering `autoRollback`); when a truthy health-check path was supplied
(line 352's `if (healthCheck)` is a truthiness test, so a present but
empty `health_check=` parameter skips polling), poll up to `maxAttempts`
times, healthy iff some attempt returns status 200 (exhaustion sets
`rollbackNeeded`); finally delete every entry of `releases/` other than
the new one and answer 200.  Every path ends in `releaseLock` (the
`finally` block). -/
def deploy (env : DeployEnv) (fs : AppFs) : DeployResult × AppFs :=
  match acquireLock env.now fs with
  | Except.error msg => (DeployResult.failure msg, releaseLock fs)
  | Except.ok fsL =>
    let rel := Nat.repr env.now
    let fs1 := { fsL with releases :=
      if fsL.releases.contains rel then fsL.releases
      else fsL.releases ++ [rel] }
    if !env.extractOk then
      (DeployResult.failure "tar failed", releaseLock fs1)
    else
      let fs2 :=
        match fs1.current with
        | some t => { fs1 with previous := some t }
        | none => fs1
      let fs3 := { fs2 with current := some (releasePath env.now) }
      if !env.pm2StartOk then
        (DeployResult.failure "PM2 start failed", releaseLock fs3)
      else if !env.pm2DescribeOk then
        (DeployResult.failure "PM2 process failed to start",
          releaseLock (autoRollback fs3))
      else
        let healthy :=
          if jsTruthy env.healthCheck then
            (List.range maxAttempts).any (fun i => env.healthStatus i == some 200)
          else true
        if !healthy then
          (DeployResult.failure "Health check failed",
            releaseLock (autoRollback fs3))
        else
          let keptReleases := fs3.releases.filter (fun r => r == rel)
          let fs4 := { fs3 with releases := keptReleases }
          (DeployResult.success env.now, releaseLock fs4)

/-- A deploy request arriving at time 2000 with no health check, whose
external steps would all succeed. -/
def envPlain : DeployEnv :=
  { now := 2000, healthCheck := none, extractOk := true, pm2StartOk := true,
    pm2DescribeOk := true, healthStatus := fun _ => none }

/-- A deploy request at time 3000 with health-check path `/health`, whose
every health attempt hits a connection error. -/
def envSickHealth : DeployEnv :=
  { now := 3000, healthCheck := some "/health", extractOk := true,
    pm2StartOk := true, pm2DescribeOk := true,
    healthStatus := fun _ => none }

/-- One entry of the rate-limit table (line 27: `IP -> {count, lastReset}`). -/
structure RLEntry where
  count : Nat
  lastReset : Nat
deriving Repr, DecidableEq

/-- The rate-limit table, `rateLimitMap`: client address to entry. -/
abbrev RLMap := String → Option RLEntry

/-- Point update of the rate-limit table (`rateLimitMap.set`). -/
def rlUpdate (m : RLMap) (ip : String) (e : RLEntry) : RLMap :=
  fun k => if k = ip then some e else m k

/-- `checkRateLimit` (lines 63-80): missing entry or an entry whose window
expired (strictly more than 60000 ms since `lastReset`) is (re)set to
count 1 and the request is allowed; an entry with `count >= 10` inside the
window rejects the request and mutates nothing; otherwise the count is
incremented and the request is allowed. -/
def checkRateLimit (now : Nat) (ip : String) (m : RLMap) : Bool × RLMap :=
  match m ip with
  | none => (true, rlUpdate m ip ⟨1, now⟩)
  | some e =>
    if now - e.lastReset > RATE_WINDOW_MS then
      (true, rlUpdate m ip ⟨1, now⟩)
    else if e.count ≥ RATE_MAX then
      (false, m)
    else
      (true, rlUpdate m ip ⟨e.count + 1, e.lastReset⟩)

/-- The fields of a release's `package.json` that `deploy` reads
(lines 273-295): `scripts.start` and `main`.  `none` means the field is
absent; an empty string is present but falsy in the source's truthiness
tests. -/
structure Pkg where
  start : Option String
  main : Option String
deriving Repr, DecidableEq

/-- Launch-command selection (lines 273-295): with a parsed manifest, a
truthy `scripts.start` selects `npm run start`; else a truthy `main`
selects that module; else the default `index.js`.  A missing or unparsable
`package.json` (the catch at line 292) also selects `index.js`.  Returns
the pm2 `script` and `args` fields. -/
def pickScript (pkg : Option Pkg) : String × List String :=
  match pkg with
  | none => ("index.js", [])
  | some p =>
    if jsTruthy p.start then
      ("npm", ["run", "start"])
    else
      match p.main with
      | some m => if m == "" then ("index.js", []) else (m, [])
      | none => ("index.js", [])

/-- A character allowed by the app-name pattern `/^[a-zA-Z0-9_-]+$/`
(line 93). -/
def isAppNameChar (c : Char) : Bool :=
  c.isAlphanum || c == '-' || c == '_'

/-- `sanitizeAppName` (lines 91-97): accepts exactly the non-empty strings
of ASCII letters, digits, hyphens and underscores
(`/^[a-zA-Z0-9_-]+$/`), and throws `Invalid app name format` otherwise. -/
def sanitizeAppName (s : String) : Except String String :=
  if !(s == "") && s.data.all isAppNameChar then
    Except.ok s
  else
    Except.error "Invalid app name format"

/-- Whether `sanitizeAppName` accepts the name. -/
def sanitizeOk (s : String) : Bool :=
  match sanitizeAppName s with
  | Except.ok _ => true
  | Except.error _ => false

/-- What the management dispatcher does with a request once it is routed:
either a response status code is already determined, or the request is
handed to the named handler. -/
inductive ApiOutcome where
  | status (code : Nat)
  | dispatched (handler : String)
deriving Repr, DecidableEq

/-- `handleApiRequest` (lines 579-628) up to handler dispatch, composed
with each handler's treatment of a malformed app name.  Gate order is IP
allowlist (403), rate limit (429), token auth (401); a missing action or
app name answers 400.  For a malformed app name the outcome per route
follows the source's try/catch placement: `deploy` (line 202) and
`rollback` (line 430) call `sanitizeAppName` *outside* their own
try blocks, so the throw reaches the dispatcher's catch (line 626) and is
answered 500; `stop`, `restart`, `status` and `logs` sanitize inside a
try whose catch answers 404; `destroy` sanitizes inside a try whose catch
answers 500 (line 534).  An unknown action/method pair answers 404. -/
def apiRoute (ipAllowed rateOk authOk : Bool)
    (method action appName : String) : ApiOutcome :=
  if !ipAllowed then ApiOutcome.status 403
  else if !rateOk then ApiOutcome.status 429
  else if !authOk then ApiOutcome.status 401
  else if action == "" || appName == "" then ApiOutcome.status 400
  else if method == "POST" && action == "deploy" then
    if sanitizeOk appName then ApiOutcome.dispatched "deploy"
    else ApiOutcome.status 500
  else if method == "POST" && action == "rollback" then
    if sanitizeOk appName then ApiOutcome.dispatched "rollback"
    else ApiOutcome.status 500
  else if method == "POST" && action == "stop" then
    if sanitizeOk appName then ApiOutcome.dispatched "stop"
    else ApiOutcome.status 404
  else if method == "POST" && action == "restart" then
    if sanitizeOk appName then ApiOutcome.dispatched "restart"
    else ApiOutcome.status 404
  else if method == "POST" && action == "destroy" then
    if sanitizeOk appName then ApiOutcome.dispatched "destroy"
    else ApiOutcome.status 500
  else if method == "GET" && action == "status" then
    if sanitizeOk appName then ApiOutcome.dispatched "status"
    else ApiOutcome.status 404
  else if method == "GET" && action == "logs" then
    if sanitizeOk appName then ApiOutcome.dispatched "logs"
    else ApiOutcome.status 404
  else ApiOutcome.status 404

/-- One registry record (`apps[name]`, lines 396-401). -/
structure AppRecord where
  lastDeploy : Nat
  pm2Name : String
  healthCheck : Option String
  port : Option Nat
deriving Repr, DecidableEq

/-- The in-memory app registry (`apps`, line 25). -/
abbrev Registry := String → Option AppRecord

/-- `delete apps[name]` (line 528). -/
def regErase (reg : Registry) (name : String) : Registry :=
  fun k => if k = name then none else reg k

/-- `destroyApp` (lines 516-536).  A malformed name throws inside the try
and is answered 500 `Failed to destroy app`.  Otherwise `pm2 delete` is
attempted with its error swallowed, the app's base directory is removed
with its error swallowed (`pm2DeleteOk` and `rmOk` record those outcomes;
the directory survives a failed removal), the registry entry is deleted (a
no-op when absent), the registry is persisted, and the response is 200
`App destroyed successfully`.  Returns ((status, message), registry,
remaining app directory). -/
def destroyApp (pm2DeleteOk rmOk : Bool) (name : String) (reg : Registry)
    (dir : Option AppFs) : (Nat × String) × Registry × Option AppFs :=
  if sanitizeOk name then
    let dirAfter := if rmOk then none else dir
    ((200, "App destroyed successfully"), regErase reg name, dirAfter)
  else
    ((500, "Failed to destroy app"), reg, dir)

/-- A rate-limit table holding one address at the cap (count 10, window
started at 5000 ms). -/
def rlFull : RLMap :=
  fun k => if k = "198.51.100.7" then some ⟨10, 5000⟩ else none

/-- A rate-limit table holding one address below the cap (count 3). -/
def rlPart : RLMap :=
  fun k => if k = "198.51.100.7" then some ⟨3, 5000⟩ else none

/-- A manifest declaring both a start script and a main module. -/
def pkgStart : Pkg := { start := some "node server.js", main := some "app.js" }

/-- A manifest declaring only a main module. -/
def pkgMainOnly : Pkg := { start := none, main := some "app.js" }

/-- A manifest declaring neither field. -/
def pkgBare : Pkg := { start := none, main := none }

/-- The empty app registry. -/
def regEmpty : Registry := fun _ => none

/-- C5: acquiring the lock while a marker exists: age strictly over 600000 ms
means the stale marker is replaced by a fresh one and acquisition succeeds;
age at most 600000 ms means a Conflict error
(`Deployment already in progress`) and no state change. -/
theorem acquireLock_staleness (now m : Nat) (fs : AppFs)
    (h : fs.lockMtime = some m) :
    (now - m > LOCK_STALE_MS →
      acquireLock now fs = Except.ok { fs with lockMtime := some now }) ∧
    (now - m ≤ LOCK_STALE_MS →
      acquireLock now fs = Except.error "Deployment already in progress") := by
  constructor
  · intro hgt
    simp [acquireLock, h, hgt]
  · intro hle
    simp [acquireLock, h, Nat.not_lt.mpr hle]

/-- Witness for `acquireLock_staleness` at a concrete state: a marker of age
700000 ms is taken over, a marker of age 1000 ms causes a Conflict. -/
theorem acquireLock_staleness_witness :
    fsLockedAt0.lockMtime = some 0 ∧
    acquireLock 700000 fsLockedAt0 =
      Except.ok { fsLockedAt0 with lockMtime := some 700000 } ∧
    acquireLock 1000 fsLockedAt0 =
      Except.error "Deployment already in progress" := by
  refine ⟨rfl, ?_, ?_⟩
  · exact (acquireLock_staleness 700000 0 fsLockedAt0 rfl).1 (by decide)
  · exact (acquireLock_staleness 1000 0 fsLockedAt0 rfl).2 (by decide)

/-- C3: a rollback request on an app whose `previous` symlink is absent
answers 404 (`No previous version to rollback to`) and leaves the whole
app state — in particular the `current` symlink — unchanged, whatever the
supervisor would have done. -/
theorem rollback_no_previous (b : Bool) (fs : AppFs)
    (h : fs.previous = none) :
    rollback b fs = ((404, "No previous version to rollback to"), fs) := by
  simp [rollback, h]

/-- Witness for `rollback_no_previous` at a concrete state. -/
theorem rollback_no_previous_witness :
    rollback true fsOneRelease =
      ((404, "No previous version to rollback to"), fsOneRelease) :=
  rollback_no_previous true fsOneRelease rfl

/-- C4: when both symlinks exist, `rollback` swaps the `current` and
`previous` targets and reports success, so two consecutive successful
rollbacks restore the app state exactly — the swap is an involution. -/
theorem rollback_involution (fs : AppFs) (p c : String)
    (hp : fs.previous = some p) (hc : fs.current = some c) :
    (rollback true fs).1.1 = 200 ∧
    (rollback true fs).2.current = some p ∧
    (rollback true fs).2.previous = some c ∧
    (rollback true ((rollback true fs).2)).1.1 = 200 ∧
    (rollback true ((rollback true fs).2)).2 = fs := by
  obtain ⟨l, cur, prev, rel⟩ := fs
  simp only [AppFs.mk.injEq] at hp hc ⊢
  subst hp hc
  simp [rollback]

/-- Witness for `rollback_involution` at a concrete two-release state. -/
theorem rollback_involution_witness :
    (rollback true ((rollback true fsTwoReleases).2)).2 = fsTwoReleases :=
  (rollback_involution fsTwoReleases "releases/1" "releases/2"
    rfl rfl).2.2.2.2

/-- Helper: a successful `acquireLock` only refreshes the lock marker. -/
theorem acquireLock_ok {now : Nat} {fs fsL : AppFs}
    (h : acquireLock now fs = Except.ok fsL) :
    fsL = { fs with lockMtime := some now } := by
  unfold acquireLock at h
  split at h
  · split at h
    · exact (Except.ok.inj h).symm
    · exact absurd h (by simp)
  · exact (Except.ok.inj h).symm

/-- C1: a second deploy request arriving at time 2000 while another
deployment holds the lock (marker mtime 0, so age 2000 ms ≤ 600000 ms) is
rejected with the conflict message — but the handler's `finally` block still
runs `releaseLock`, so the request *does* change the filesystem: the lock
marker held by the first deployment is deleted. -/
theorem deploy_conflict_removes_lock :
    fsLockedAt0.lockMtime = some 0 ∧
    (deploy envPlain fsLockedAt0).1 =
      DeployResult.failure "Deployment already in progress" ∧
    (deploy envPlain fsLockedAt0).2.lockMtime = none := by
  refine ⟨rfl, ?_, ?_⟩ <;> rfl

/-- C2: whenever `deploy` answers success with timestamp `ts` (and the
timestamp names a directory not already present under `releases/`, as a
fresh millisecond timestamp does), `ts` is the request's timestamp, the
`current` symlink points at the release directory created by this deploy,
and the releases directory holds exactly that one entry. -/
theorem deploy_success_commit (env : DeployEnv) (fs : AppFs) (ts : Nat)
    (hfresh : Nat.repr env.now ∉ fs.releases)
    (h : (deploy env fs).1 = DeployResult.success ts) :
    ts = env.now ∧
    (deploy env fs).2.current = some (releasePath env.now) ∧
    (deploy env fs).2.releases = [Nat.repr env.now] := by
  unfold deploy at h ⊢
  cases hacq : acquireLock env.now fs with
  | error msg =>
    rw [hacq] at h
    simp at h
  | ok fsL =>
    have hL : fsL = { fs with lockMtime := some env.now } := acquireLock_ok hacq
    rw [hacq] at h
    subst hL
    have hcont : fs.releases.contains (Nat.repr env.now) = false := by
      simpa using hfresh
    have hfil : (fs.releases ++ [Nat.repr env.now]).filter
        (fun r => r == Nat.repr env.now) = [Nat.repr env.now] := by
      rw [List.filter_append]
      have h1 : fs.releases.filter (fun r => r == Nat.repr env.now) = [] := by
        rw [List.filter_eq_nil_iff]
        intro a ha
        simp only [beq_iff_eq]
        rintro rfl
        exact hfresh ha
      simp [h1]
    by_cases hx : env.extractOk
    · by_cases hs : env.pm2StartOk
      · by_cases hd : env.pm2DescribeOk
        · by_cases hh : jsTruthy env.healthCheck
          · by_cases hany : (List.range maxAttempts).any
                (fun i => env.healthStatus i == some 200)
            · cases hcur : fs.current with
              | none =>
                simp only [hx, hs, hd, hh, hcur, hcont, hany, Bool.not_true,
                  Bool.false_eq_true, if_false, if_true] at h ⊢
                simp_all [releaseLock, hfil]
              | some t =>
                simp only [hx, hs, hd, hh, hcur, hcont, hany, Bool.not_true,
                  Bool.false_eq_true, if_false, if_true] at h ⊢
                simp_all [releaseLock, hfil]
            · simp [hx, hs, hd, hh, hany, hcont] at h
          · cases hcur : fs.current with
            | none =>
              simp only [hx, hs, hd, hh, hcur, hcont, Bool.not_true,
                Bool.false_eq_true, if_false, if_true] at h ⊢
              simp_all [releaseLock, hfil]
            | some t =>
              simp only [hx, hs, hd, hh, hcur, hcont, Bool.not_true,
                Bool.false_eq_true, if_false, if_true] at h ⊢
              simp_all [releaseLock, hfil]
        · simp [hx, hs, hd, hcont] at h
      · simp [hx, hs, hcont] at h
    · simp [hx, hcont] at h

/-- Witness for `deploy_success_commit`: a deploy at time 2000 onto a state
holding release `1` succeeds, repoints `current` at `releases/2000`, and
leaves exactly the entry `2000` under `releases/`. -/
theorem deploy_success_commit_witness :
    Nat.repr envPlain.now ∉ fsOneRelease.releases ∧
    (deploy envPlain fsOneRelease).1 = DeployResult.success 2000 ∧
    (deploy envPlain fsOneRelease).2.current = some (releasePath 2000) ∧
    (deploy envPlain fsOneRelease).2.releases = [Nat.repr 2000] := by
  have h : (deploy envPlain fsOneRelease).1 = DeployResult.success 2000 := by
    decide
  have hmain := deploy_success_commit envPlain fsOneRelease 2000 (by decide) h
  exact ⟨by decide, h, hmain.2.1, hmain.2.2⟩

/-- C6: a deploy whose lock is free, whose extraction and both pm2 steps
succeed, that carries a non-empty health-check path (line 352's
`if (healthCheck)` is a truthiness test, so an empty path would skip
polling), and whose every health attempt fails to return status 200, ends
in the automatic rollback — the response is the 500 `Health check failed`
error and `current` points at the pre-deploy release again; moreover the
retry schedule is exactly ten attempts with delays 1s, 2s, then eight
of 4s. -/
theorem deploy_health_fail_rollback (env : DeployEnv) (fs : AppFs)
    (c hp : String)
    (hlock : fs.lockMtime = none) (hcur : fs.current = some c)
    (hhc : env.healthCheck = some hp) (hne : hp ≠ "")
    (hfail : ∀ i, i < maxAttempts → env.healthStatus i ≠ some 200)
    (hx : env.extractOk = true) (hs : env.pm2StartOk = true)
    (hd : env.pm2DescribeOk = true) :
    (deploy env fs).1 = DeployResult.failure "Health check failed" ∧
    (deploy env fs).2.current = some c ∧
    healthDelays = [1000, 2000] ++ List.replicate 8 4000 ∧
    healthDelays.length = maxAttempts := by
  have hany : ((List.range maxAttempts).any
      (fun i => env.healthStatus i == some 200)) = false := by
    rw [List.any_eq_false]
    intro i hi
    simp only [beq_iff_eq]
    exact hfail i (List.mem_range.mp hi)
  have hacq : acquireLock env.now fs =
      Except.ok { fs with lockMtime := some env.now } := by
    simp [acquireLock, hlock]
  have hne' : (hp == "") = false := by
    simpa using hne
  refine ⟨?_, ?_, by decide, by decide⟩ <;>
    simp [deploy, hacq, hx, hs, hd, hhc, hne', hcur, hany, jsTruthy,
      autoRollback, releaseLock]

/-- Witness for `deploy_health_fail_rollback`: a health-checked deploy at
time 3000 onto the one-release state, with every attempt erroring, answers
`Health check failed` and leaves `current` at `releases/1`. -/
theorem deploy_health_fail_rollback_witness :
    (deploy envSickHealth fsOneRelease).1 =
      DeployResult.failure "Health check failed" ∧
    (deploy envSickHealth fsOneRelease).2.current = some "releases/1" :=
  have hmain := deploy_health_fail_rollback envSickHealth fsOneRelease
    "releases/1" "/health" rfl rfl rfl (by decide)
    (fun _ _ h => Option.noConfusion h) rfl rfl rfl
  ⟨hmain.1, hmain.2.1⟩

/-- C7: the rate limiter's complete per-address behaviour.  For an address
with an entry: at the cap (count ≥ 10) inside the 60s window the request is
rejected and the table is not mutated; below the cap inside the window the
request is accepted and only that address's count is incremented; after the
window has expired the request is accepted and that address's entry is
reset to count 1 at the new time.  An address with no entry — in particular
a different client during another address's active window — is accepted
with a fresh entry of its own. -/
theorem checkRateLimit_spec (m : RLMap) (ip ip2 : String) (now : Nat)
    (e : RLEntry) (h : m ip = some e) :
    (e.count ≥ RATE_MAX → now - e.lastReset ≤ RATE_WINDOW_MS →
      checkRateLimit now ip m = (false, m)) ∧
    (e.count < RATE_MAX → now - e.lastReset ≤ RATE_WINDOW_MS →
      checkRateLimit now ip m =
        (true, rlUpdate m ip ⟨e.count + 1, e.lastReset⟩)) ∧
    (now - e.lastReset > RATE_WINDOW_MS →
      checkRateLimit now ip m = (true, rlUpdate m ip ⟨1, now⟩)) ∧
    (m ip2 = none →
      checkRateLimit now ip2 m = (true, rlUpdate m ip2 ⟨1, now⟩)) := by
  refine ⟨?_, ?_, ?_, ?_⟩
  · intro hge hle
    simp [checkRateLimit, h, Nat.not_lt.mpr hle, hge]
  · intro hlt hle
    simp [checkRateLimit, h, Nat.not_lt.mpr hle, Nat.not_le.mpr hlt]
  · intro hgt
    simp [checkRateLimit, h, hgt]
  · intro h2
    simp [checkRateLimit, h2]

/-- Witness for `checkRateLimit_spec`: with address `198.51.100.7` at the
cap since 5000 ms, its next request at 6000 ms is rejected without
mutation; below the cap the count increments; at 70000 ms the window has
expired and the entry resets; a first request from `203.0.113.9` during the
active window is accepted. -/
theorem checkRateLimit_spec_witness :
    checkRateLimit 6000 "198.51.100.7" rlFull = (false, rlFull) ∧
    checkRateLimit 6000 "198.51.100.7" rlPart =
      (true, rlUpdate rlPart "198.51.100.7" ⟨4, 5000⟩) ∧
    checkRateLimit 70000 "198.51.100.7" rlFull =
      (true, rlUpdate rlFull "198.51.100.7" ⟨1, 70000⟩) ∧
    checkRateLimit 6000 "203.0.113.9" rlFull =
      (true, rlUpdate rlFull "203.0.113.9" ⟨1, 6000⟩) := by
  refine ⟨?_, ?_, ?_, ?_⟩
  · exact (checkRateLimit_spec rlFull "198.51.100.7" "203.0.113.9" 6000
      ⟨10, 5000⟩ rfl).1 (by decide) (by decide)
  · exact (checkRateLimit_spec rlPart "198.51.100.7" "203.0.113.9" 6000
      ⟨3, 5000⟩ rfl).2.1 (by decide) (by decide)
  · exact (checkRateLimit_spec rlFull "198.51.100.7" "203.0.113.9" 70000
      ⟨10, 5000⟩ rfl).2.2.1 (by decide)
  · exact (checkRateLimit_spec rlFull "198.51.100.7" "203.0.113.9" 6000
      ⟨10, 5000⟩ rfl).2.2.2 rfl

/-- C8: launch-command priority.  A declared (truthy) start script selects
`npm run start`; with no truthy start script, a declared (truthy) main
module selects that module; with neither, the default `index.js`; and with
no manifest at all, the default `index.js`. -/
theorem pickScript_priority (p : Pkg) (s mn : String) :
    (p.start = some s → s ≠ "" →
      pickScript (some p) = ("npm", ["run", "start"])) ∧
    (jsTruthy p.start = false → p.main = some mn → mn ≠ "" →
      pickScript (some p) = (mn, [])) ∧
    (jsTruthy p.start = false → jsTruthy p.main = false →
      pickScript (some p) = ("index.js", [])) ∧
    pickScript none = ("index.js", []) := by
  refine ⟨?_, ?_, ?_, rfl⟩
  · intro hst hs
    simp [pickScript, jsTruthy, hst, hs]
  · intro hst hm hmn
    simp [pickScript, hst, hm, hmn]
  · intro hst hm
    cases hmain : p.main with
    | none => simp [pickScript, hst, hmain]
    | some m =>
      rw [hmain] at hm
      simp only [jsTruthy, Bool.not_eq_false'] at hm
      simp [pickScript, hst, hmain, hm]

/-- Witness for `pickScript_priority` on concrete manifests: start script
beats main module, main module beats the default, and a bare or missing
manifest falls back to `index.js`. -/
theorem pickScript_priority_witness :
    pickScript (some pkgStart) = ("npm", ["run", "start"]) ∧
    pickScript (some pkgMainOnly) = ("app.js", []) ∧
    pickScript (some pkgBare) = ("index.js", []) ∧
    pickScript none = ("index.js", []) := by
  refine ⟨?_, ?_, ?_, ?_⟩
  · exact (pickScript_priority pkgStart "node server.js" "app.js").1 rfl
      (by decide)
  · exact (pickScript_priority pkgMainOnly "" "app.js").2.1 rfl rfl
      (by decide)
  · exact (pickScript_priority pkgBare "" "").2.2.1 rfl rfl
  · exact (pickScript_priority pkgBare "" "").2.2.2

/-- C9 counterexample: the management request `POST /deploy/bad name` (an
app name the sanitizer rejects, all gates passing) is answered 500, not
400: `deploy` sanitizes outside its try block, so the throw lands in the
dispatcher's generic 500 catch. -/
theorem apiRoute_malformed_name_counterexample :
    sanitizeOk "bad name" = false ∧
    apiRoute true true true "POST" "deploy" "bad name" =
      ApiOutcome.status 500 ∧
    apiRoute true true true "POST" "deploy" "bad name" ≠
      ApiOutcome.status 400 := by
  refine ⟨by decide, by decide, by decide⟩

/-- C9 amended: a management request with a malformed (non-empty) app name
is rejected, but never with 400: `deploy`, `rollback` and `destroy` answer
500 and `stop`, `restart`, `status` and `logs` answer 404. -/
theorem apiRoute_malformed_name (name : String)
    (hbad : sanitizeOk name = false) (hne : name ≠ "") :
    apiRoute true true true "POST" "deploy" name = ApiOutcome.status 500 ∧
    apiRoute true true true "POST" "rollback" name = ApiOutcome.status 500 ∧
    apiRoute true true true "POST" "destroy" name = ApiOutcome.status 500 ∧
    apiRoute true true true "POST" "stop" name = ApiOutcome.status 404 ∧
    apiRoute true true true "POST" "restart" name = ApiOutcome.status 404 ∧
    apiRoute true true true "GET" "status" name = ApiOutcome.status 404 ∧
    apiRoute true true true "GET" "logs" name = ApiOutcome.status 404 := by
  have hne' : (name == "") = false := by
    simpa using hne
  refine ⟨?_, ?_, ?_, ?_, ?_, ?_, ?_⟩ <;> simp [apiRoute, hbad, hne']

/-- Witness for `apiRoute_malformed_name` at the concrete malformed name
`bad name`. -/
theorem apiRoute_malformed_name_witness :
    apiRoute true true true "POST" "rollback" "bad name" =
      ApiOutcome.status 500 ∧
    apiRoute true true true "GET" "status" "bad name" =
      ApiOutcome.status 404 :=
  have hmain := apiRoute_malformed_name "bad name" (by decide) (by decide)
  ⟨hmain.2.1, hmain.2.2.2.2.2.1⟩

/-- C10: destroying a well-formed app name always answers 200
`App destroyed successfully`, whatever the outcomes of the supervisor
delete and the directory removal (both are swallowed); when the app was
never deployed (no registry entry) the registry is left exactly as it
was — deleting the missing entry is a no-op. -/
theorem destroyApp_never_deployed (b1 b2 : Bool) (name : String)
    (reg : Registry) (dir : Option AppFs)
    (hname : sanitizeOk name = true) (habsent : reg name = none) :
    (destroyApp b1 b2 name reg dir).1 = (200, "App destroyed successfully") ∧
    (destroyApp b1 b2 name reg dir).2.1 = reg := by
  constructor
  · simp [destroyApp, hname]
  · show (destroyApp b1 b2 name reg dir).2.1 = reg
    simp only [destroyApp, hname, if_true]
    funext k
    unfold regErase
    by_cases hk : k = name
    · rw [if_pos hk, hk, habsent]
    · rw [if_neg hk]

/-- Witness for `destroyApp_never_deployed`: destroying the never-deployed
app `ghost-app` with both the supervisor delete and the directory removal
failing still answers 200 and leaves the empty registry empty. -/
theorem destroyApp_never_deployed_witness :
    (destroyApp false false "ghost-app" regEmpty none).1 =
      (200, "App destroyed successfully") ∧
    (destroyApp false false "ghost-app" regEmpty none).2.1 = regEmpty :=
  destroyApp_never_deployed false false "ghost-app" regEmpty none
    (by decide) rfl
